import Mathlib

/-!
# Verification of the DenteScope dental-width analysis pipeline

Shallow embedding of the measurement / classification core of the
repository, together with proofs and refutations of its specification
claims.  The embedded functions follow the source:

* `supabase/functions/dental-analysis` edge function variant
  (tooth detection, width calculation, clinical classification,
  result assembly);
* `supabase/functions/dental-batch-analysis` (batch orchestration,
  per-image failure isolation, summary statistics);
* the Python `DentalWidthAnalyzer` class (categorisation, greedy
  nearest-centroid pairing, bounding-box width measurement).

JavaScript numbers and Python floats are modelled as rationals;
`Math.random()` draws and the fractional part of `Math.sin(seed)*10000`
are passed in explicitly as rational parameters, making every function a
pure, executable definition.
-/

namespace DenteScope

/-- JavaScript `Math.round`: rounds to the nearest integer, ties toward
positive infinity. -/
def jsRound (q : ℚ) : ℤ := ⌊q + 1/2⌋

/-- The idiom `Math.round(x * 100) / 100` used throughout the source to
report values with two decimals. -/
def round2 (q : ℚ) : ℚ := (jsRound (q * 100) : ℚ) / 100

/-- A detected tooth region (`ToothDetection` in the edge functions):
pixel bounding box, detector confidence and pixel area. -/
structure ToothDetection where
  x : ℤ
  y : ℤ
  width : ℤ
  height : ℤ
  confidence : ℚ
  area : ℤ
  deriving DecidableEq

/-- `calculateToothWidth` from the edge functions: the shorter bounding-box
dimension in pixels, scaled by a per-call variation
`0.95 + Math.random() * 0.1` (the draw of `Math.random()` is the explicit
parameter `rand`) and by the calibration factor. -/
def calculateToothWidth (detection : ToothDetection) (calibrationFactor : ℚ)
    (rand : ℚ) : ℚ :=
  let widthPixels : ℚ := (min detection.width detection.height : ℤ)
  let variation := 95/100 + rand * (1/10)
  let adjustedWidthPixels := widthPixels * variation
  adjustedWidthPixels * calibrationFactor

/-- The hard-coded calibration constant of the analysis pipeline
(`const calibrationFactor = 0.1`). -/
def calibrationFactor : ℚ := 1/10

/-- `classifyClinicalSignificance` from the edge functions: bands on the
absolute width difference in millimetres. -/
def classifyClinicalSignificance (widthDifference : ℚ) : String :=
  if |widthDifference| > 3 then "Highly Significant"
  else if |widthDifference| > 2 then "Significant"
  else if |widthDifference| > 1 then "Moderate"
  else "Normal"

/-- The premolar-width clamp of the analysis pipeline
(`primaryMolarWidth > premolarWidth ? premolarWidth : primaryMolarWidth * 0.85`). -/
def adjustedPremolarWidth (primaryMolarWidth premolarWidth : ℚ) : ℚ :=
  if primaryMolarWidth > premolarWidth then premolarWidth
  else primaryMolarWidth * (85/100)

/-- The `tooth_width_analysis` part of the single-image response. -/
structure ToothWidthAnalysis where
  molar_width_mm : ℚ
  premolar_width_mm : ℚ
  value_mm : ℚ
  percentage : ℚ
  clinical_significance : String
  deriving DecidableEq

/-- Assembly of `tooth_width_analysis` from the two raw (unrounded) widths,
following the single-image edge function: the clamp is applied, the
difference and percentage are computed from the unrounded values, and each
reported number is rounded with `Math.round(x * 100) / 100`. -/
def buildToothWidthAnalysis (primaryMolarWidth premolarWidth : ℚ) :
    ToothWidthAnalysis :=
  let adjusted := adjustedPremolarWidth primaryMolarWidth premolarWidth
  let widthDifference := primaryMolarWidth - adjusted
  let percentage := widthDifference / adjusted * 100
  { molar_width_mm := round2 primaryMolarWidth
    premolar_width_mm := round2 adjusted
    value_mm := round2 widthDifference
    percentage := round2 percentage
    clinical_significance := classifyClinicalSignificance widthDifference }

theorem round2_mono {a b : ℚ} (h : a ≤ b) : round2 a ≤ round2 b := by
  unfold round2 jsRound
  have : (⌊a * 100 + 1/2⌋ : ℤ) ≤ ⌊b * 100 + 1/2⌋ := by
    apply Int.floor_le_floor
    nlinarith
  have hc : ((⌊a * 100 + 1/2⌋ : ℤ) : ℚ) ≤ ((⌊b * 100 + 1/2⌋ : ℤ) : ℚ) := by
    exact_mod_cast this
  linarith

theorem adjustedPremolarWidth_le {m p : ℚ} (hm : 0 ≤ m) :
    adjustedPremolarWidth m p ≤ m := by
  unfold adjustedPremolarWidth
  split
  · linarith
  · nlinarith

/-- C1: for every emitted pair the reported premolar `width_mm` is at most
the reported primary-molar `width_mm`, and whenever the computed premolar
width exceeds its paired molar's width the premolar width is replaced by
`molar_width * 0.85` before the pair is emitted. -/
theorem width_clamp_invariant (m p : ℚ) (hm : 0 ≤ m) :
    (buildToothWidthAnalysis m p).premolar_width_mm ≤
      (buildToothWidthAnalysis m p).molar_width_mm
    ∧ (m < p → adjustedPremolarWidth m p = m * (85/100)) := by
  constructor
  · exact round2_mono (adjustedPremolarWidth_le hm)
  · intro hlt
    unfold adjustedPremolarWidth
    rw [if_neg (by linarith)]

theorem width_clamp_invariant_witness :
    (0:ℚ) ≤ 9 ∧
    ((buildToothWidthAnalysis 9 (19/2)).premolar_width_mm ≤
        (buildToothWidthAnalysis 9 (19/2)).molar_width_mm
      ∧ ((9:ℚ) < 19/2 → adjustedPremolarWidth 9 (19/2) = 9 * (85/100))) :=
  ⟨by norm_num, width_clamp_invariant 9 (19/2) (by norm_num)⟩

theorem round2_eq_of {q : ℚ} {n : ℤ} (h1 : (n:ℚ) ≤ q * 100 + 1/2)
    (h2 : q * 100 + 1/2 < (n:ℚ) + 1) : round2 q = (n:ℚ)/100 := by
  unfold round2 jsRound
  rw [Int.floor_eq_iff.mpr ⟨h1, by exact_mod_cast h2⟩]

/-- C2 counterexample: with raw widths 5.128mm and 4.124mm (no clamp fires),
the reported `value_mm` is 1.00 while the difference of the independently
rounded reported widths is 5.13 - 4.12 = 1.01, so
`abs(value_mm - (molar.width_mm - premolar.width_mm))` is 0.01, not below
1e-6. -/
theorem difference_consistency_counterexample :
    ¬ (|(buildToothWidthAnalysis (641/125) (1031/250)).value_mm -
          ((buildToothWidthAnalysis (641/125) (1031/250)).molar_width_mm -
            (buildToothWidthAnalysis (641/125) (1031/250)).premolar_width_mm)|
        < 1/1000000) := by
  intro h
  have hadj : adjustedPremolarWidth (641/125) (1031/250) = 1031/250 := by
    unfold adjustedPremolarWidth
    rw [if_pos (by norm_num)]
  have hv : (buildToothWidthAnalysis (641/125) (1031/250)).value_mm = 1 := by
    show round2 (641/125 - adjustedPremolarWidth (641/125) (1031/250)) = 1
    rw [hadj, round2_eq_of (n := 100) (by norm_num) (by norm_num)]
    norm_num
  have hm : (buildToothWidthAnalysis (641/125) (1031/250)).molar_width_mm
      = 513/100 := by
    show round2 (641/125) = 513/100
    rw [round2_eq_of (n := 513) (by norm_num) (by norm_num)]
    norm_num
  have hp : (buildToothWidthAnalysis (641/125) (1031/250)).premolar_width_mm
      = 103/25 := by
    show round2 (adjustedPremolarWidth (641/125) (1031/250)) = 103/25
    rw [hadj, round2_eq_of (n := 412) (by norm_num) (by norm_num)]
    norm_num
  rw [hv, hm, hp, abs_lt] at h
  linarith [h.1]

theorem jsRound_sub_bound (a b : ℚ) :
    |jsRound (a - b) - (jsRound a - jsRound b)| ≤ 1 := by
  have hC₁ : ((jsRound (a - b) : ℤ) : ℚ) ≤ (a - b) + 1/2 := Int.floor_le _
  have hC₂ : (a - b) + 1/2 < ((jsRound (a - b) : ℤ) : ℚ) + 1 :=
    Int.lt_floor_add_one _
  have hA₁ : ((jsRound a : ℤ) : ℚ) ≤ a + 1/2 := Int.floor_le _
  have hA₂ : a + 1/2 < ((jsRound a : ℤ) : ℚ) + 1 := Int.lt_floor_add_one _
  have hB₁ : ((jsRound b : ℤ) : ℚ) ≤ b + 1/2 := Int.floor_le _
  have hB₂ : b + 1/2 < ((jsRound b : ℤ) : ℚ) + 1 := Int.lt_floor_add_one _
  rw [abs_le]
  constructor
  · have hq : (-2 : ℚ) < ((jsRound (a - b) - (jsRound a - jsRound b) : ℤ) : ℚ) := by
      push_cast
      linarith
    have : (-2 : ℤ) < jsRound (a - b) - (jsRound a - jsRound b) := by
      exact_mod_cast hq
    omega
  · have hq : ((jsRound (a - b) - (jsRound a - jsRound b) : ℤ) : ℚ) < 2 := by
      push_cast
      linarith
    have : jsRound (a - b) - (jsRound a - jsRound b) < (2 : ℤ) := by
      exact_mod_cast hq
    omega

/-- The `width_difference.value_mm` of the adaptive `dental-analysis` edge
function, which (unlike the enhanced variant) subtracts the already-rounded
reported widths before rounding again. -/
def adaptiveValueMm (m p : ℚ) : ℚ := round2 (round2 m - round2 p)

theorem round2_hundredth (n : ℤ) : round2 ((n:ℚ)/100) = (n:ℚ)/100 := by
  unfold round2 jsRound
  rw [show (n:ℚ)/100 * 100 = (n:ℚ) by field_simp]
  rw [show ⌊(n:ℚ) + 1/2⌋ = n from
    Int.floor_eq_iff.mpr ⟨by linarith, by linarith⟩]

/-- C2 amended: in the enhanced single-image function the difference and
percentage are computed from the raw (unrounded) widths and then rounded;
because the reported widths are rounded independently, `value_mm` can
differ from `molar.width_mm - premolar.width_mm` by up to one rounding
unit, 0.01, and the reported percentage is the two-decimal rounding of
`(raw difference) / (raw premolar width) * 100`.  In the adaptive variant,
which subtracts the already-rounded widths, the identity is exact. -/
theorem difference_consistency_amended (m p : ℚ) :
    |(buildToothWidthAnalysis m p).value_mm -
        ((buildToothWidthAnalysis m p).molar_width_mm -
          (buildToothWidthAnalysis m p).premolar_width_mm)| ≤ 1/100
    ∧ (buildToothWidthAnalysis m p).percentage =
        round2 ((m - adjustedPremolarWidth m p) / adjustedPremolarWidth m p * 100)
    ∧ adaptiveValueMm m p = round2 m - round2 p := by
  refine ⟨?_, rfl, ?_⟩
  case refine_2 =>
    unfold adaptiveValueMm
    rw [show round2 m - round2 p
        = ((jsRound (m * 100) - jsRound (p * 100) : ℤ) : ℚ)/100 by
      unfold round2
      push_cast
      ring]
    exact round2_hundredth _
  show |round2 (m - adjustedPremolarWidth m p) -
      (round2 m - round2 (adjustedPremolarWidth m p))| ≤ 1/100
  set q := adjustedPremolarWidth m p with hq
  have key : |jsRound ((m - q) * 100) - (jsRound (m * 100) - jsRound (q * 100))| ≤ 1 := by
    have := jsRound_sub_bound (m * 100) (q * 100)
    have harg : (m - q) * 100 = m * 100 - q * 100 := by ring
    rw [harg]
    exact this
  unfold round2
  have hkey : |((jsRound ((m - q) * 100) - (jsRound (m * 100) - jsRound (q * 100)) : ℤ) : ℚ)| ≤ 1 := by
    rw [← Int.cast_abs]
    exact_mod_cast key
  rw [div_sub_div_same, ← sub_div, abs_div]
  rw [show |(100:ℚ)| = 100 by norm_num]
  rw [div_le_div_iff₀ (by norm_num) (by norm_num)]
  push_cast at hkey ⊢
  linarith

theorem difference_consistency_amended_witness :
    |(buildToothWidthAnalysis 9 7).value_mm -
        ((buildToothWidthAnalysis 9 7).molar_width_mm -
          (buildToothWidthAnalysis 9 7).premolar_width_mm)| ≤ 1/100
    ∧ (buildToothWidthAnalysis 9 7).percentage =
        round2 ((9 - adjustedPremolarWidth 9 7) / adjustedPremolarWidth 9 7 * 100)
    ∧ adaptiveValueMm 9 7 = round2 9 - round2 7 :=
  difference_consistency_amended 9 7

/-- C3 counterexample: a pair with raw difference 0.7mm over a premolar
width of 3.5mm has `|percentage| = 20 > 15`, yet
`classifyClinicalSignificance` (which inspects only the millimetre value)
classifies it "Normal", not "Significant". -/
theorem significance_band_counterexample :
    |(7/10 : ℚ) / (7/2) * 100| > 15
    ∧ classifyClinicalSignificance (7/10) = "Normal"
    ∧ "Normal" ≠ "Significant" := by
  refine ⟨?_, ?_, by decide⟩
  · rw [show (7/10 : ℚ) / (7/2) * 100 = 20 by norm_num,
      abs_of_pos (by norm_num : (0:ℚ) < 20)]
    norm_num
  · unfold classifyClinicalSignificance
    rw [abs_of_pos (by norm_num : (0:ℚ) < 7/10)]
    norm_num

/-- C3 amended: `clinical_significance` is classified from the millimetre
difference alone (the percentage is never consulted): 2.0mm < `|value|` ≤
3.0mm yields "Significant" (above 3.0mm the band is "Highly Significant");
in particular molar width 10.24mm and premolar width 8.14mm give
`value_mm = 2.10`, reported percentage 25.80, and classification
"Significant". -/
theorem significance_band_amended (d : ℚ) (h1 : 2 < |d|) (h2 : |d| ≤ 3) :
    classifyClinicalSignificance d = "Significant"
    ∧ (buildToothWidthAnalysis (1024/100) (814/100)).value_mm = 21/10
    ∧ (buildToothWidthAnalysis (1024/100) (814/100)).percentage = 258/10
    ∧ (buildToothWidthAnalysis (1024/100) (814/100)).clinical_significance =
        "Significant" := by
  have hadj : adjustedPremolarWidth (1024/100) (814/100) = 814/100 := by
    unfold adjustedPremolarWidth
    rw [if_pos (by norm_num)]
  refine ⟨?_, ?_, ?_, ?_⟩
  · unfold classifyClinicalSignificance
    rw [if_neg (by simp only [not_lt]; exact h2), if_pos h1]
  · show round2 (1024/100 - adjustedPremolarWidth (1024/100) (814/100)) = 21/10
    rw [hadj, round2_eq_of (n := 210) (by norm_num) (by norm_num)]
    norm_num
  · show round2 ((1024/100 - adjustedPremolarWidth (1024/100) (814/100)) /
        adjustedPremolarWidth (1024/100) (814/100) * 100) = 258/10
    rw [hadj, round2_eq_of (n := 2580) (by norm_num) (by norm_num)]
    norm_num
  · show classifyClinicalSignificance
        (1024/100 - adjustedPremolarWidth (1024/100) (814/100)) = "Significant"
    rw [hadj, show (1024/100 : ℚ) - 814/100 = 21/10 by norm_num]
    unfold classifyClinicalSignificance
    rw [abs_of_pos (by norm_num : (0:ℚ) < 21/10)]
    norm_num

theorem significance_band_amended_witness :
    (2 < |(21/10 : ℚ)| ∧ |(21/10 : ℚ)| ≤ 3) ∧
    (classifyClinicalSignificance (21/10) = "Significant"
      ∧ (buildToothWidthAnalysis (1024/100) (814/100)).value_mm = 21/10
      ∧ (buildToothWidthAnalysis (1024/100) (814/100)).percentage = 258/10
      ∧ (buildToothWidthAnalysis (1024/100) (814/100)).clinical_significance =
          "Significant") :=
  have habs : |(21/10 : ℚ)| = 21/10 := abs_of_pos (by norm_num)
  ⟨⟨by rw [habs]; norm_num, by rw [habs]; norm_num⟩,
    significance_band_amended (21/10) (by rw [habs]; norm_num)
      (by rw [habs]; norm_num)⟩

/-- C4: `calculateToothWidth` is not a function of the image and
configuration alone: on one and the same detection and calibration it
returns 3.8mm when the per-call `Math.random()` draw is 0 and 4.0mm when the
draw is 0.5, so two runs of `analyze()` on identical input differ.  This
contradicts the source's own intent of hashing the image "for consistent
results per image". -/
theorem width_depends_on_random_draw :
    calculateToothWidth ⟨850, 400, 40, 50, 9/10, 2000⟩ calibrationFactor 0 ≠
      calculateToothWidth ⟨850, 400, 40, 50, 9/10, 2000⟩ calibrationFactor (1/2) := by
  show ((min (40:ℤ) 50 : ℤ) : ℚ) * (95/100 + 0 * (1/10)) * calibrationFactor ≠
    ((min (40:ℤ) 50 : ℤ) : ℚ) * (95/100 + (1/2) * (1/10)) * calibrationFactor
  rw [show min (40:ℤ) 50 = 40 by decide]
  unfold calibrationFactor
  norm_num

/-- `seededRandom` from the edge functions.  The source computes
`Math.abs(Math.sin(baseSeed) * 10000 - Math.floor(...))`, a value in
`[0, 1)`; that transcendental fractional part is modelled by the abstract
`noise` function, keeping the definition executable. -/
def seededRandom (noise : ℕ → ℚ) (baseSeed : ℕ) (lo hi : ℚ) : ℚ :=
  lo + noise baseSeed * (hi - lo)

/-- The return shape of `detectTeethInImage`: both fields are nullable in
the source's type. -/
structure DetectedTeeth where
  primaryMolar : Option ToothDetection
  premolar : Option ToothDetection

/-- `detectTeethInImage` from the single-image edge function: anatomical
bands, seeded pseudo-random placement, the premolar pushed anterior to the
molar, and a flat position bonus on the confidences.  (The source also
computes `sizeRatio`/`isValidSizeRelationship`, but never uses them;
they are omitted.) -/
def detectTeethInImage (noise : ℕ → ℚ) (imageWidth imageHeight : ℚ)
    (seed : ℕ) : DetectedTeeth :=
  let primaryMolarX := ⌊imageWidth * seededRandom noise seed (55/100) (90/100)⌋
  let primaryMolarY := ⌊imageHeight * seededRandom noise (seed + 1) (25/100) (75/100)⌋
  let primaryMolarWidth := ⌊seededRandom noise (seed + 2) 45 65⌋
  let primaryMolarHeight := ⌊seededRandom noise (seed + 3) 40 60⌋
  let premolarX := ⌊imageWidth * seededRandom noise (seed + 4) (35/100) (75/100)⌋
  let premolarY := ⌊imageHeight * seededRandom noise (seed + 5) (25/100 + 1/10) (75/100)⌋
  let premolarWidth := ⌊seededRandom noise (seed + 6) 35 55⌋
  let premolarHeight := ⌊seededRandom noise (seed + 7) 35 50⌋
  let adjustedPremolarX := min premolarX (primaryMolarX - 20)
  let primaryMolarArea := primaryMolarWidth * primaryMolarHeight
  let premolarArea := premolarWidth * premolarHeight
  let primaryConfidence := seededRandom noise (seed + 8) (85/100) (96/100)
  let premolarConfidence := seededRandom noise (seed + 9) (82/100) (94/100)
  let positionBonus : ℚ := 5/100
  let finalPrimaryConfidence := min (primaryConfidence + positionBonus) 1
  let finalPremolarConfidence := min (premolarConfidence + positionBonus) 1
  { primaryMolar := some
      { x := primaryMolarX, y := primaryMolarY, width := primaryMolarWidth,
        height := primaryMolarHeight, confidence := finalPrimaryConfidence,
        area := primaryMolarArea }
    premolar := some
      { x := adjustedPremolarX, y := premolarY, width := premolarWidth,
        height := premolarHeight, confidence := finalPremolarConfidence,
        area := premolarArea } }

/-- The single-image edge function after detection: if either tooth is
missing it throws `'Failed to detect both primary molar and premolar in
anatomically correct positions'` (caught by the handler as a 500 error
response); otherwise it measures both teeth with the hard-coded calibration
and assembles the `tooth_width_analysis`.  `rand1`/`rand2` are the two
`Math.random()` draws inside `calculateToothWidth`. -/
def analyzeDetections (detected : DetectedTeeth) (rand1 rand2 : ℚ) :
    Except String ToothWidthAnalysis :=
  match detected.primaryMolar, detected.premolar with
  | some pm, some pr =>
      Except.ok (buildToothWidthAnalysis
        (calculateToothWidth pm calibrationFactor rand1)
        (calculateToothWidth pr calibrationFactor rand2))
  | _, _ =>
      Except.error
        "Failed to detect both primary molar and premolar in anatomically correct positions"

/-- C10: the mock detector always returns non-null `primaryMolar` and
`premolar` for every image size, seed and noise realisation, so the
'Failed to detect both primary molar and premolar' error branch of the
single-image analysis can never run. -/
theorem detect_always_returns_both (noise : ℕ → ℚ) (w h : ℚ) (seed : ℕ)
    (rand1 rand2 : ℚ) :
    (detectTeethInImage noise w h seed).primaryMolar.isSome = true
    ∧ (detectTeethInImage noise w h seed).premolar.isSome = true
    ∧ ∃ a, analyzeDetections (detectTeethInImage noise w h seed) rand1 rand2 =
        Except.ok a :=
  ⟨rfl, rfl, ⟨_, rfl⟩⟩

theorem detect_always_returns_both_witness :
    (detectTeethInImage (fun _ => 1/2) 1200 800 7).primaryMolar.isSome = true
    ∧ (detectTeethInImage (fun _ => 1/2) 1200 800 7).premolar.isSome = true
    ∧ ∃ a, analyzeDetections (detectTeethInImage (fun _ => 1/2) 1200 800 7)
        0 0 = Except.ok a :=
  detect_always_returns_both (fun _ => 1/2) 1200 800 7 0 0

/-- C5 counterexample: when the detector output contains zero usable
regions (both teeth null), the single-image analysis takes the throw branch
and yields an error response, not a success with `total_pairs_detected = 0`. -/
theorem zero_detections_error_counterexample :
    analyzeDetections ⟨none, none⟩ 0 0 =
      Except.error
        "Failed to detect both primary molar and premolar in anatomically correct positions"
    ∧ (analyzeDetections ⟨none, none⟩ 0 0).isOk = false :=
  ⟨rfl, rfl⟩

namespace PyAnalyzer

/-- A detection dict produced by `DentalWidthAnalyzer.detect_teeth`:
`bbox` is `[x1, y1, x2, y2]` in integer pixels. -/
structure BBox where
  x1 : ℤ
  y1 : ℤ
  x2 : ℤ
  y2 : ℤ
  deriving DecidableEq

structure Detection where
  bbox : BBox
  confidence : ℚ
  class_name : String
  deriving DecidableEq

/-- `self.mm_per_pixel = 0.12` in `DentalWidthAnalyzer.__init__`. -/
def mm_per_pixel : ℚ := 12/100

/-- `self.magnification_factor = 1.25` in `DentalWidthAnalyzer.__init__`. -/
def magnification_factor : ℚ := 5/4

/-- `DentalWidthAnalyzer.measure_width`: `pixel_width = x2 - x1`, then
`width_mm = pixel_width * mm_per_pixel / magnification_factor`. -/
def measure_width (bbox : BBox) : ℚ :=
  ((bbox.x2 - bbox.x1 : ℤ) : ℚ) * mm_per_pixel / magnification_factor

/-- Boolean prefix test on character lists (pattern first). -/
def startsWithB : List Char → List Char → Bool
  | [], _ => true
  | _ :: _, [] => false
  | c :: cs, d :: ds => c = d && startsWithB cs ds

/-- Boolean substring test on character lists, mirroring Python's
`term in s`. -/
def containsSubB (pat : List Char) : List Char → Bool
  | [] => startsWithB pat []
  | text@(_ :: rest) => startsWithB pat text || containsSubB pat rest

/-- Python `term in det['class_name'].lower()` for a lowercase term. -/
def termInLower (term : String) (s : String) : Bool :=
  containsSubB term.toList (s.toList.map Char.toLower)

/-- The primary-molar test of `categorize_teeth`:
`any(term in name.lower() for term in ['primary', 'deciduous', 'e', 'j'])`. -/
def isPrimaryMolarName (d : Detection) : Bool :=
  ["primary", "deciduous", "e", "j"].any (fun t => termInLower t d.class_name)

/-- The premolar test of `categorize_teeth`:
`any(term in name.lower() for term in ['premolar', 'bicuspid'])`. -/
def isPremolarName (d : Detection) : Bool :=
  ["premolar", "bicuspid"].any (fun t => termInLower t d.class_name)

/-- `DentalWidthAnalyzer.categorize_teeth`: the `if`/`elif` ladder means a
detection matching the primary terms never reaches the premolar list. -/
def categorize_teeth (detections : List Detection) :
    List Detection × List Detection :=
  (detections.filter isPrimaryMolarName,
    detections.filter (fun d => !isPrimaryMolarName d && isPremolarName d))

def centerX (d : Detection) : ℚ := ((d.bbox.x1 + d.bbox.x2 : ℤ) : ℚ) / 2

def centerY (d : Detection) : ℚ := ((d.bbox.y1 + d.bbox.y2 : ℤ) : ℚ) / 2

/-- Squared centroid distance.  The source compares
`np.sqrt((dx)**2 + (dy)**2)` values; since the square root is strictly
monotone on nonnegatives, every comparison in `match_pairs` coincides with
the comparison of the squared distances, which keeps the embedding
executable over `ℚ`. -/
def distSq (a b : Detection) : ℚ :=
  (centerX a - centerX b)^2 + (centerY a - centerY b)^2

/-- One iteration of the inner loop of `match_pairs`: keep the strictly
closer of the current best candidate and the next premolar (`min_dist`
starts at infinity, so the first premolar always becomes the candidate). -/
def betterOf (pm : Detection) : Option Detection → Detection → Option Detection
  | none, pr => some pr
  | some b, pr => if distSq pm pr < distSq pm b then some pr else some b

/-- The inner loop of `match_pairs`: scan the (never shrinking) premolar
list keeping the strictly closest candidate seen so far. -/
def bestMatch (pm : Detection) (premolars : List Detection) :
    Option Detection :=
  premolars.foldl (betterOf pm) none

/-- `DentalWidthAnalyzer.match_pairs`: each primary molar is matched
independently against the full premolar list; a chosen premolar is never
removed or marked claimed. -/
def match_pairs (primary_molars premolars : List Detection) :
    List (Detection × Detection) :=
  primary_molars.filterMap
    (fun pm => (bestMatch pm premolars).map (fun pr => (pm, pr)))

/-- Python's `round(x, 2)`: round-half-to-even on hundredths. -/
def pyRound2 (q : ℚ) : ℚ :=
  let scaled := q * 100
  let f := ⌊scaled⌋
  let frac := scaled - f
  let n := if frac < 1/2 then f
    else if 1/2 < frac then f + 1
    else if f % 2 = 0 then f else f + 1
  (n : ℚ) / 100

/-- One entry of the `results` list of `DentalWidthAnalyzer.analyze`. -/
structure PairResult where
  primary_class : String
  primary_width_mm : ℚ
  primary_confidence : ℚ
  premolar_class : String
  premolar_width_mm : ℚ
  premolar_confidence : ℚ
  difference_mm : ℚ
  within_normal_range : Bool
  deriving DecidableEq

structure AnalyzeResult where
  results : List PairResult
  total_pairs_detected : ℕ
  deriving DecidableEq

/-- `DentalWidthAnalyzer.analyze` from the detector output onward
(preprocessing and drawing omitted: they do not affect the returned dict). -/
def analyze (detections : List Detection) : AnalyzeResult :=
  let cats := categorize_teeth detections
  let pairs := match_pairs cats.1 cats.2
  let results := pairs.map (fun pq =>
    let pm_width := measure_width pq.1.bbox
    let pr_width := measure_width pq.2.bbox
    let difference := pm_width - pr_width
    { primary_class := pq.1.class_name
      primary_width_mm := pyRound2 pm_width
      primary_confidence := pyRound2 pq.1.confidence
      premolar_class := pq.2.class_name
      premolar_width_mm := pyRound2 pr_width
      premolar_confidence := pyRound2 pq.2.confidence
      difference_mm := pyRound2 difference
      within_normal_range := decide (2 ≤ difference ∧ difference ≤ 28/10) })
  { results := results, total_pairs_detected := results.length }

theorem betterOf_isSome (pm : Detection) (acc : Option Detection)
    (a : Detection) : ∃ c, betterOf pm acc a = some c := by
  cases acc with
  | none => exact ⟨a, rfl⟩
  | some b =>
    by_cases hlt : distSq pm a < distSq pm b
    · exact ⟨a, by rw [show betterOf pm (some b) a
        = if distSq pm a < distSq pm b then some a else some b from rfl,
        if_pos hlt]⟩
    · exact ⟨b, by rw [show betterOf pm (some b) a
        = if distSq pm a < distSq pm b then some a else some b from rfl,
        if_neg hlt]⟩

theorem betterOf_mem {pm : Detection} {acc : Option Detection}
    {a c : Detection} (h : betterOf pm acc a = some c) :
    c = a ∨ acc = some c := by
  cases acc with
  | none =>
    injection h with h'
    exact Or.inl h'.symm
  | some b =>
    rw [show betterOf pm (some b) a
      = if distSq pm a < distSq pm b then some a else some b from rfl] at h
    by_cases hlt : distSq pm a < distSq pm b
    · rw [if_pos hlt] at h
      injection h with h'
      exact Or.inl h'.symm
    · rw [if_neg hlt] at h
      exact Or.inr h

theorem betterOf_le {pm : Detection} {acc : Option Detection}
    {a c : Detection} (h : betterOf pm acc a = some c) :
    distSq pm c ≤ distSq pm a := by
  cases acc with
  | none =>
    injection h with h'
    rw [← h']
  | some b =>
    rw [show betterOf pm (some b) a
      = if distSq pm a < distSq pm b then some a else some b from rfl] at h
    by_cases hlt : distSq pm a < distSq pm b
    · rw [if_pos hlt] at h
      injection h with h'
      rw [← h']
    · rw [if_neg hlt] at h
      injection h with h'
      rw [← h']
      exact le_of_not_lt hlt

theorem betterOf_acc_le {pm : Detection} {b a c : Detection}
    (h : betterOf pm (some b) a = some c) :
    distSq pm c ≤ distSq pm b := by
  rw [show betterOf pm (some b) a
    = if distSq pm a < distSq pm b then some a else some b from rfl] at h
  by_cases hlt : distSq pm a < distSq pm b
  · rw [if_pos hlt] at h
    injection h with h'
    rw [← h']
    exact le_of_lt hlt
  · rw [if_neg hlt] at h
    injection h with h'
    rw [← h']

theorem bestMatch_foldl_spec (pm : Detection) :
    ∀ (l : List Detection) (acc : Option Detection) (pr : Detection),
      l.foldl (betterOf pm) acc = some pr →
      (pr ∈ l ∨ acc = some pr)
      ∧ (∀ q ∈ l, distSq pm pr ≤ distSq pm q)
      ∧ (∀ b, acc = some b → distSq pm pr ≤ distSq pm b) := by
  intro l
  induction l with
  | nil =>
    intro acc pr h
    rw [List.foldl_nil] at h
    refine ⟨Or.inr h, by simp, ?_⟩
    intro b hb
    rw [h] at hb
    injection hb with hb'
    rw [hb']
  | cons a t ih =>
    intro acc pr h
    rw [List.foldl_cons] at h
    obtain ⟨ih1, ih2, ih3⟩ := ih (betterOf pm acc a) pr h
    refine ⟨?_, ?_, ?_⟩
    · rcases ih1 with hmem | heq
      · exact Or.inl (List.mem_cons_of_mem _ hmem)
      · rcases betterOf_mem heq with hpa | hacc
        · exact Or.inl (by rw [hpa]; exact List.mem_cons_self a t)
        · exact Or.inr hacc
    · intro q hq
      rcases List.mem_cons.mp hq with rfl | hq'
      · obtain ⟨c, hc⟩ := betterOf_isSome pm acc q
        exact le_trans (ih3 c hc) (betterOf_le hc)
      · exact ih2 q hq'
    · intro b hb
      subst hb
      obtain ⟨c, hc⟩ := betterOf_isSome pm (some b) a
      exact le_trans (ih3 c hc) (betterOf_acc_le hc)

/-- C6 amended: `match_pairs` pairs each molar independently with a
minimum-distance premolar (so every emitted pair is optimal for its molar),
but never marks the chosen premolar claimed, so the same premolar can
appear in several pairs. -/
theorem match_pairs_min_distance (pms prs : List Detection)
    (pm pr : Detection) (h : (pm, pr) ∈ match_pairs pms prs) :
    pr ∈ prs ∧ ∀ q ∈ prs, distSq pm pr ≤ distSq pm q := by
  rw [match_pairs, List.mem_filterMap] at h
  obtain ⟨a, _, hfa⟩ := h
  rw [Option.map_eq_some'] at hfa
  obtain ⟨x, hbm, hx⟩ := hfa
  injection hx with hx1 hx2
  subst hx1
  subst hx2
  obtain ⟨h1, h2, _⟩ := bestMatch_foldl_spec a prs none x hbm
  rcases h1 with hmem | habs
  · exact ⟨hmem, h2⟩
  · exact absurd habs (by simp)

/-- Two molars whose shared nearest premolar sits between them. -/
def exMolar1 : Detection := ⟨⟨0, 0, 2, 2⟩, 9/10, "primary_second_molar"⟩

def exMolar2 : Detection := ⟨⟨4, 0, 6, 2⟩, 9/10, "primary_second_molar"⟩

def exPremolarNear : Detection := ⟨⟨2, 0, 4, 2⟩, 9/10, "second_premolar"⟩

def exPremolarFar : Detection := ⟨⟨100, 100, 102, 102⟩, 9/10, "second_premolar"⟩

theorem bestMatch_exMolar1 :
    bestMatch exMolar1 [exPremolarNear, exPremolarFar] = some exPremolarNear := by
  unfold bestMatch
  rw [List.foldl_cons, List.foldl_cons, List.foldl_nil]
  rw [show betterOf exMolar1 none exPremolarNear = some exPremolarNear from rfl]
  rw [show betterOf exMolar1 (some exPremolarNear) exPremolarFar
    = if distSq exMolar1 exPremolarFar < distSq exMolar1 exPremolarNear
      then some exPremolarFar else some exPremolarNear from rfl]
  rw [if_neg]
  norm_num [distSq, centerX, centerY, exMolar1, exPremolarNear, exPremolarFar]

theorem bestMatch_exMolar2 :
    bestMatch exMolar2 [exPremolarNear, exPremolarFar] = some exPremolarNear := by
  unfold bestMatch
  rw [List.foldl_cons, List.foldl_cons, List.foldl_nil]
  rw [show betterOf exMolar2 none exPremolarNear = some exPremolarNear from rfl]
  rw [show betterOf exMolar2 (some exPremolarNear) exPremolarFar
    = if distSq exMolar2 exPremolarFar < distSq exMolar2 exPremolarNear
      then some exPremolarFar else some exPremolarNear from rfl]
  rw [if_neg]
  norm_num [distSq, centerX, centerY, exMolar2, exPremolarNear, exPremolarFar]

/-- C6 counterexample: with two molars flanking a single nearby premolar,
`match_pairs` emits two pairs that share the same premolar — nothing marks
a matched premolar as claimed. -/
theorem pairing_reuse_counterexample :
    (match_pairs [exMolar1, exMolar2] [exPremolarNear, exPremolarFar]).map
        Prod.snd = [exPremolarNear, exPremolarNear]
    ∧ ¬ ((match_pairs [exMolar1, exMolar2]
          [exPremolarNear, exPremolarFar]).map Prod.snd).Nodup := by
  have hmp : match_pairs [exMolar1, exMolar2] [exPremolarNear, exPremolarFar]
      = [(exMolar1, exPremolarNear), (exMolar2, exPremolarNear)] := by
    unfold match_pairs
    simp only [List.filterMap_cons, List.filterMap_nil,
      bestMatch_exMolar1, bestMatch_exMolar2, Option.map_some']
  rw [hmp]
  exact ⟨rfl, by simp⟩

theorem match_pairs_min_distance_witness :
    ((exMolar1, exPremolarNear) ∈ match_pairs [exMolar1] [exPremolarNear])
    ∧ (exPremolarNear ∈ [exPremolarNear]
        ∧ ∀ q ∈ [exPremolarNear],
            distSq exMolar1 exPremolarNear ≤ distSq exMolar1 q) :=
  have hmem : (exMolar1, exPremolarNear) ∈
      match_pairs [exMolar1] [exPremolarNear] := by
    rw [show match_pairs [exMolar1] [exPremolarNear]
        = [(exMolar1, exPremolarNear)] from rfl]
    exact List.mem_cons_self _ _
  ⟨hmem, match_pairs_min_distance [exMolar1] [exPremolarNear]
    exMolar1 exPremolarNear hmem⟩

/-- Definition written from the claim's words, for comparison with the
source: `width_px = min(bbox.width, bbox.height)` and
`width_mm = width_px * calibration_mm_per_pixel / magnification_factor`. -/
def claimedMinDimWidthMm (bbox : BBox) : ℚ :=
  ((min (bbox.x2 - bbox.x1) (bbox.y2 - bbox.y1) : ℤ) : ℚ) * mm_per_pixel /
    magnification_factor

/-- C7 counterexample: on the box `[0, 0, 50, 10]` (width 50px, height
10px) `measure_width` returns `50 * 0.12 / 1.25 = 4.8mm`, whereas the
claimed `min(width, height)` formula gives `10 * 0.12 / 1.25 = 0.96mm`. -/
theorem measure_width_counterexample :
    measure_width ⟨0, 0, 50, 10⟩ = 24/5
    ∧ claimedMinDimWidthMm ⟨0, 0, 50, 10⟩ = 24/25
    ∧ measure_width ⟨0, 0, 50, 10⟩ ≠ claimedMinDimWidthMm ⟨0, 0, 50, 10⟩ := by
  have hmin : min ((50:ℤ) - 0) (10 - 0) = 10 := by decide
  refine ⟨?_, ?_, ?_⟩
  · norm_num [measure_width, mm_per_pixel, magnification_factor]
  · rw [show claimedMinDimWidthMm ⟨0, 0, 50, 10⟩
        = ((min ((50:ℤ) - 0) (10 - 0) : ℤ) : ℚ) * mm_per_pixel /
          magnification_factor from rfl, hmin]
    norm_num [mm_per_pixel, magnification_factor]
  · rw [show claimedMinDimWidthMm ⟨0, 0, 50, 10⟩
        = ((min ((50:ℤ) - 0) (10 - 0) : ℤ) : ℚ) * mm_per_pixel /
          magnification_factor from rfl, hmin]
    norm_num [measure_width, mm_per_pixel, magnification_factor]

/-- Definition written from the amended wording: the horizontal extent
`x2 - x1` scaled by `mm_per_pixel` and divided by the magnification. -/
def amendedHorizontalWidthMm (bbox : BBox) : ℚ :=
  ((bbox.x2 - bbox.x1 : ℤ) : ℚ) * mm_per_pixel / magnification_factor

/-- C7 amended: `measure_width` measures the horizontal bounding-box extent
`x2 - x1` (not the shorter dimension) and scales it by
`mm_per_pixel / magnification_factor`. -/
theorem measure_width_amended (bbox : BBox) :
    measure_width bbox = amendedHorizontalWidthMm bbox
    ∧ measure_width bbox * magnification_factor
        = ((bbox.x2 - bbox.x1 : ℤ) : ℚ) * mm_per_pixel := by
  refine ⟨rfl, ?_⟩
  unfold measure_width magnification_factor
  field_simp

theorem measure_width_amended_witness :
    measure_width ⟨0, 0, 50, 10⟩ = amendedHorizontalWidthMm ⟨0, 0, 50, 10⟩
    ∧ measure_width ⟨0, 0, 50, 10⟩ * magnification_factor
        = (((50:ℤ) - 0 : ℤ) : ℚ) * mm_per_pixel :=
  measure_width_amended ⟨0, 0, 50, 10⟩

/-- C5 amended: `DentalWidthAnalyzer.analyze` degrades gracefully — zero
molar-eligible detections yield a success dict with
`total_pairs_detected = 0` (though with no recommendation field) — while
the single-image edge function instead throws and returns an error response
when the detector output lacks either tooth. -/
theorem graceful_emptiness_amended (detections : List Detection)
    (h : (categorize_teeth detections).1 = []) :
    (analyze detections).total_pairs_detected = 0
    ∧ analyzeDetections ⟨none, none⟩ 0 0 =
        Except.error
          "Failed to detect both primary molar and premolar in anatomically correct positions" := by
  refine ⟨?_, rfl⟩
  simp [analyze, match_pairs, h]

theorem graceful_emptiness_amended_witness :
    ((categorize_teeth ([] : List Detection)).1 = [])
    ∧ ((analyze ([] : List Detection)).total_pairs_detected = 0
        ∧ analyzeDetections ⟨none, none⟩ 0 0 =
            Except.error
              "Failed to detect both primary molar and premolar in anatomically correct positions") :=
  ⟨rfl, graceful_emptiness_amended [] rfl⟩

end PyAnalyzer

/-- Definition written from the claim's words, for comparison with the
source: a calibration factor at or below zero is rejected before any
measurement is produced. -/
def claimedMeasureWithCalibrationGuard (detection : ToothDetection)
    (cal rand : ℚ) : Option ℚ :=
  if cal ≤ 0 then none else some (calculateToothWidth detection cal rand)

/-- C9 counterexample: the source has no calibration validation —
`calculateToothWidth` invoked with calibration -1 on a 40x50px detection
happily produces the "measurement" -38mm, where the claimed guard yields
rejection. -/
theorem calibration_rejection_counterexample :
    calculateToothWidth ⟨850, 400, 40, 50, 9/10, 2000⟩ (-1) 0 = -38
    ∧ claimedMeasureWithCalibrationGuard ⟨850, 400, 40, 50, 9/10, 2000⟩
        (-1) 0 = none := by
  constructor
  · show ((min (40:ℤ) 50 : ℤ) : ℚ) * (95/100 + 0 * (1/10)) * (-1) = -38
    rw [show min (40:ℤ) 50 = 40 by decide]
    norm_num
  · unfold claimedMeasureWithCalibrationGuard
    rw [if_pos (by norm_num)]

/-- C9 amended: the pipeline's calibration is the hard-coded positive
constant 0.1 (which the spec-side guard accepts), so no served measurement
uses a non-positive calibration; but nothing rejects a non-positive factor —
`calculateToothWidth` simply returns a non-positive width for it. -/
theorem calibration_amended (detection : ToothDetection) (cal rand : ℚ)
    (hw : 0 ≤ detection.width) (hh : 0 ≤ detection.height)
    (hr : 0 ≤ rand) (hc : cal ≤ 0) :
    0 < calibrationFactor
    ∧ claimedMeasureWithCalibrationGuard detection calibrationFactor rand
        = some (calculateToothWidth detection calibrationFactor rand)
    ∧ calculateToothWidth detection cal rand ≤ 0 := by
  refine ⟨by norm_num [calibrationFactor], ?_, ?_⟩
  · unfold claimedMeasureWithCalibrationGuard
    rw [if_neg (by norm_num [calibrationFactor])]
  · show ((min detection.width detection.height : ℤ) : ℚ) *
      (95/100 + rand * (1/10)) * cal ≤ 0
    have h1 : (0:ℚ) ≤ ((min detection.width detection.height : ℤ) : ℚ) := by
      exact_mod_cast le_min hw hh
    have h2 : (0:ℚ) ≤ 95/100 + rand * (1/10) := by
      have := mul_nonneg hr (by norm_num : (0:ℚ) ≤ 1/10)
      linarith
    exact mul_nonpos_of_nonneg_of_nonpos (mul_nonneg h1 h2) hc

theorem calibration_amended_witness :
    ((0:ℤ) ≤ (40:ℤ) ∧ (0:ℤ) ≤ (50:ℤ) ∧ (0:ℚ) ≤ 0 ∧ (-1:ℚ) ≤ 0) ∧
    (0 < calibrationFactor
      ∧ claimedMeasureWithCalibrationGuard ⟨850, 400, 40, 50, 9/10, 2000⟩
          calibrationFactor 0
          = some (calculateToothWidth ⟨850, 400, 40, 50, 9/10, 2000⟩
              calibrationFactor 0)
      ∧ calculateToothWidth ⟨850, 400, 40, 50, 9/10, 2000⟩ (-1) 0 ≤ 0) :=
  ⟨⟨by decide, by decide, le_refl 0, by norm_num⟩,
    calibration_amended ⟨850, 400, 40, 50, 9/10, 2000⟩ (-1) 0
      (by decide) (by decide) (le_refl 0) (by norm_num)⟩

/-! ## Batch analysis (`dental-batch-analysis` edge function) -/

inductive AnalysisStatus where
  | success : AnalysisStatus
  | error : AnalysisStatus
  deriving DecidableEq

/-- The per-image data consumed by the batch mock analyzer: the hash-derived
seed and the `Math.random()` draws used for the two width measurements and
the three image-quality scores. -/
structure BatchImgData where
  seed : ℕ
  rand1 : ℚ
  rand2 : ℚ
  q1 : ℚ
  q2 : ℚ
  q3 : ℚ

/-- One uploaded file: decoding its bytes (`arrayBuffer` + hashing) either
succeeds with the data above or throws with a message. -/
structure BatchItem where
  fileName : String
  fileSize : ℕ
  decoded : Except String BatchImgData

/-- `generateClinicalRecommendations` from the batch edge function. -/
def generateClinicalRecommendations (widthDifference percentage : ℚ) :
    List String :=
  if |widthDifference| > 3 ∨ |percentage| > 25 then
    ["Significant width discrepancy detected",
      "Space maintainer placement recommended",
      "Orthodontic consultation advised"]
  else if |widthDifference| > 2 ∨ |percentage| > 15 then
    ["Moderate width discrepancy detected",
      "Regular monitoring recommended",
      "Consider preventive measures"]
  else if |widthDifference| > 1 ∨ |percentage| > 8 then
    ["Minor width discrepancy detected",
      "Monitor eruption pattern"]
  else
    ["Normal width relationship",
      "Continue routine monitoring"]

structure BatchAnalysisResult where
  fileName : String
  fileSize : ℕ
  analysis : ToothWidthAnalysis
  resolution : String
  brightness : ℚ
  contrast : ℚ
  sharpness : ℚ
  recommendations : List String
  status : AnalysisStatus
  errorMsg : Option String

/-- The catch branch of `analyzeImage`: zeroed analysis, status `error`. -/
def failedResult (file : BatchItem) (e : String) : BatchAnalysisResult :=
  { fileName := file.fileName
    fileSize := file.fileSize
    analysis :=
      { molar_width_mm := 0
        premolar_width_mm := 0
        value_mm := 0
        percentage := 0
        clinical_significance := "Analysis failed" }
    resolution := "Unknown"
    brightness := 0
    contrast := 0
    sharpness := 0
    recommendations := ["Analysis failed - please retry with a clearer image"]
    status := AnalysisStatus.error
    errorMsg := some e }

/-- `analyzeImage` from the batch edge function: per-image try/catch — a
decode failure (or the unreachable missing-tooth throw) produces a
status-`error` record; otherwise the image is analysed with the estimated
1200x800 dimensions and the shared measurement pipeline. -/
def analyzeImage (noise : ℕ → ℚ) (file : BatchItem) : BatchAnalysisResult :=
  match file.decoded with
  | Except.error e => failedResult file e
  | Except.ok data =>
    let detected := detectTeethInImage noise 1200 800 data.seed
    match detected.primaryMolar, detected.premolar with
    | some pmDet, some prDet =>
      let primaryMolarWidth := calculateToothWidth pmDet calibrationFactor data.rand1
      let premolarWidth := calculateToothWidth prDet calibrationFactor data.rand2
      let adjusted := adjustedPremolarWidth primaryMolarWidth premolarWidth
      let widthDifference := primaryMolarWidth - adjusted
      let percentage := widthDifference / adjusted * 100
      { fileName := file.fileName, fileSize := file.fileSize
        analysis := buildToothWidthAnalysis primaryMolarWidth premolarWidth
        resolution := "1200x800"
        brightness := 6/10 + data.q1 * (3/10)
        contrast := 7/10 + data.q2 * (2/10)
        sharpness := 8/10 + data.q3 * (3/20)
        recommendations := generateClinicalRecommendations widthDifference percentage
        status := AnalysisStatus.success, errorMsg := none }
    | _, _ =>
      failedResult file "Failed to detect teeth in anatomically correct positions"

structure BatchSummary where
  average_width_difference : ℚ
  significant_cases : ℕ
  moderate_cases : ℕ
  normal_cases : ℕ

structure BatchResult where
  total_files : ℕ
  processed_files : ℕ
  failed_files : ℕ
  results : List BatchAnalysisResult
  summary : BatchSummary

/-- The batch handler body after all per-image analyses complete: results
are split by status, and the summary (mean absolute percentage and the
`>20` / `>10` / rest case counts, `if`/`else if`/`else` as in the source)
is computed over the successful results only. -/
def batchAnalyze (noise : ℕ → ℚ) (files : List BatchItem) : BatchResult :=
  let results := files.map (analyzeImage noise)
  let successfulResults := results.filter
    (fun r => r.status == AnalysisStatus.success)
  let failedResults := results.filter
    (fun r => r.status == AnalysisStatus.error)
  let totalWidthDifference := successfulResults.foldl
    (fun acc r => acc + |r.analysis.percentage|) 0
  { total_files := files.length
    processed_files := successfulResults.length
    failed_files := failedResults.length
    results := results
    summary :=
      { average_width_difference :=
          if successfulResults.length > 0 then
            round2 (totalWidthDifference / (successfulResults.length : ℚ))
          else 0
        significant_cases := successfulResults.countP
          (fun r => decide (|r.analysis.percentage| > 20))
        moderate_cases := successfulResults.countP
          (fun r => decide (¬ |r.analysis.percentage| > 20
            ∧ |r.analysis.percentage| > 10))
        normal_cases := successfulResults.countP
          (fun r => decide (¬ |r.analysis.percentage| > 20
            ∧ ¬ |r.analysis.percentage| > 10)) } }

theorem status_partition (l : List BatchAnalysisResult) :
    l.length = (l.filter (fun r => r.status == AnalysisStatus.success)).length
      + (l.filter (fun r => r.status == AnalysisStatus.error)).length := by
  induction l with
  | nil => rfl
  | cons a t ih =>
    rw [List.length_cons, List.filter_cons, List.filter_cons]
    cases h : a.status
    · rw [if_pos (by decide), if_neg (by decide)]
      rw [List.length_cons]
      omega
    · rw [if_neg (by decide), if_pos (by decide)]
      rw [List.length_cons]
      omega

/-- A concrete noise realisation for the example batch. -/
def exNoise : ℕ → ℚ := fun _ => 1/2

def exOkData : BatchImgData := ⟨305419896, 1/2, 1/2, 1/2, 1/2, 1/2⟩

/-- The spec's example batch: three images, the second failing to decode. -/
def exBatch : List BatchItem :=
  [⟨"scan1.png", 500000, Except.ok exOkData⟩,
    ⟨"corrupt.png", 123, Except.error "Failed to decode image"⟩,
    ⟨"scan2.png", 600000, Except.ok exOkData⟩]

/-- C8: batch analysis isolates per-image failures — the result list is the
independent per-image map (a failing image yields a status-`error` entry and
affects no other entry), `total_files = processed_files + failed_files`
always holds, and `average_width_difference` is computed over the
successful results only (0 when there are none); on the example batch of
three files with one decode failure this gives 3 / 2 / 1. -/
theorem batch_isolation_and_summary (noise : ℕ → ℚ) (files : List BatchItem) :
    (batchAnalyze noise files).total_files
      = (batchAnalyze noise files).processed_files
        + (batchAnalyze noise files).failed_files
    ∧ (batchAnalyze noise files).results = files.map (analyzeImage noise)
    ∧ (∀ f ∈ files, ∀ e, f.decoded = Except.error e →
        (analyzeImage noise f).status = AnalysisStatus.error)
    ∧ ((batchAnalyze noise files).processed_files = 0 →
        (batchAnalyze noise files).summary.average_width_difference = 0)
    ∧ (0 < (batchAnalyze noise files).processed_files →
        (batchAnalyze noise files).summary.average_width_difference
          = round2 ((((files.map (analyzeImage noise)).filter
                (fun r => r.status == AnalysisStatus.success)).foldl
                (fun acc r => acc + |r.analysis.percentage|) 0)
              / (((files.map (analyzeImage noise)).filter
                (fun r => r.status == AnalysisStatus.success)).length : ℚ)))
    ∧ (batchAnalyze exNoise exBatch).total_files = 3
    ∧ (batchAnalyze exNoise exBatch).processed_files = 2
    ∧ (batchAnalyze exNoise exBatch).failed_files = 1 := by
  refine ⟨?_, rfl, ?_, ?_, ?_, rfl, rfl, rfl⟩
  · have hpart := status_partition (files.map (analyzeImage noise))
    rw [List.length_map] at hpart
    exact hpart
  · intro f _ e he
    simp [analyzeImage, he, failedResult]
  · intro h0
    show (if ((files.map (analyzeImage noise)).filter
        (fun r => r.status == AnalysisStatus.success)).length > 0
      then round2 ((((files.map (analyzeImage noise)).filter
            (fun r => r.status == AnalysisStatus.success)).foldl
            (fun acc r => acc + |r.analysis.percentage|) 0)
          / (((files.map (analyzeImage noise)).filter
            (fun r => r.status == AnalysisStatus.success)).length : ℚ))
      else 0) = 0
    have h0' : ((files.map (analyzeImage noise)).filter
        (fun r => r.status == AnalysisStatus.success)).length = 0 := h0
    rw [if_neg (by omega)]
  · intro h0
    show (if ((files.map (analyzeImage noise)).filter
        (fun r => r.status == AnalysisStatus.success)).length > 0
      then round2 ((((files.map (analyzeImage noise)).filter
            (fun r => r.status == AnalysisStatus.success)).foldl
            (fun acc r => acc + |r.analysis.percentage|) 0)
          / (((files.map (analyzeImage noise)).filter
            (fun r => r.status == AnalysisStatus.success)).length : ℚ))
      else 0) = round2 ((((files.map (analyzeImage noise)).filter
            (fun r => r.status == AnalysisStatus.success)).foldl
            (fun acc r => acc + |r.analysis.percentage|) 0)
          / (((files.map (analyzeImage noise)).filter
            (fun r => r.status == AnalysisStatus.success)).length : ℚ))
    have h0' : 0 < ((files.map (analyzeImage noise)).filter
        (fun r => r.status == AnalysisStatus.success)).length := h0
    rw [if_pos (by omega)]

theorem batch_isolation_and_summary_witness :
    (batchAnalyze exNoise exBatch).total_files
      = (batchAnalyze exNoise exBatch).processed_files
        + (batchAnalyze exNoise exBatch).failed_files :=
  (batch_isolation_and_summary exNoise exBatch).1

end DenteScope
